import Mathlib

/-!
Verification of `examples/ar.py` from pytorch-forecasting: a straight-line
driver script that generates synthetic autoregressive data, builds windowed
datasets, fits a DeepAR model and evaluates it.  The script is embedded
shallowly in three complementary ways:

* a value-level model of the pure computations (`eval_predictions` over
  tensors modelled as lists of rationals, the dataframe row filters of
  `main`, and the hyperparameter writes of `fine_optimal_lr`);
* a call-trace model (`Event` lists) recording, in order, every framework
  call each function performs, used for the ordering, concurrency and
  entry-point claims;
* an exception model (`Except`) in which each framework call is an oracle
  parameter that may fail, used for the error-propagation claims.
-/

namespace ArExample

/-! ## Tensors

Torch tensors are modelled as flat lists of rationals; `torch.cat`,
elementwise subtraction, `.abs()` and `.mean()` become list operations. -/

abbrev Tensor := List Rat

/-- `torch.cat` over a list of tensors. -/
def tensorCat (ts : List Tensor) : Tensor := ts.flatten

/-- Elementwise tensor subtraction (`a - b`). -/
def tensorSub (a b : Tensor) : Tensor := List.zipWith (fun x y => x - y) a b

/-- Elementwise `.abs()`. -/
def tensorAbs (a : Tensor) : Tensor := a.map (fun x => |x|)

/-- `.mean()`: sum of the entries divided by their number. -/
def tensorMean (a : Tensor) : Rat := (a.foldr (fun x s => x + s) 0) / (a.length : Rat)

/-- One batch yielded by a dataloader: the script destructures each batch as
`(x, (y, weight))` in `eval_predictions`. -/
structure Batch where
  x : Tensor
  y : Tensor
  weight : Tensor

/-- `eval_predictions(model, val_dataloader, TRAINER_KWARGS)`:
`actuals = torch.cat([y for _, (y, _) in iter(val_dataloader)])`,
`predictions = model.predict(val_dataloader, ...)`,
`return (actuals - predictions).abs().mean()`.
The model is represented by its `predict` function. -/
def eval_predictions (model_predict : List Batch → Tensor)
    (val_dataloader : List Batch) : Rat :=
  let actuals := tensorCat (val_dataloader.map Batch.y)
  let predictions := model_predict val_dataloader
  tensorMean (tensorAbs (tensorSub actuals predictions))

/-! ## Dataframe rows and the validation split of `main`

`main` samples a set of series identifiers and filters the dataframe twice:
`data[lambda x: ~x.series.isin(validation)]` for the training dataset and
`data[lambda x: x.series.isin(validation)]` for the validation dataset. -/

/-- One row of the generated dataframe, with the columns the filters read. -/
structure Row where
  series : Nat
  time_idx : Nat
  value : Rat
  deriving DecidableEq

/-- Rows passed to the training `TimeSeriesDataSet`:
`data[lambda x: ~x.series.isin(validation)]`. -/
def trainingRows (data : List Row) (validationSeries : List Nat) : List Row :=
  data.filter fun r => !(validationSeries.contains r.series)

/-- Rows passed to the validation `TimeSeriesDataSet`:
`data[lambda x: x.series.isin(validation)]`. -/
def validationRows (data : List Row) (validationSeries : List Nat) : List Row :=
  data.filter fun r => validationSeries.contains r.series

/-! ## Hyperparameter writes of `fine_optimal_lr`

`fine_optimal_lr` mutates exactly three fields before the learning-rate
search and one after it.  The model hyperparameters and the trainer are
embedded as records carrying the touched fields plus an opaque `other`
component standing for every untouched field. -/

/-- The fields of `model.hparams` that the script reads or writes, plus an
opaque component for all remaining hyperparameters. -/
structure Hparams where
  log_interval : Int
  log_val_interval : Int
  learning_rate : Rat
  otherHparams : Nat
  deriving DecidableEq

/-- The trainer fields the script writes, plus an opaque component for
every other trainer attribute. -/
structure TrainerObj where
  limit_train_batches : Rat
  otherTrainer : Nat
  deriving DecidableEq

/-- `fine_optimal_lr(trainer, model, ...)` as a state transformer: it sets
`model.hparams.log_interval = -1`, `model.hparams.log_val_interval = -1`,
`trainer.limit_train_batches = 1.0`, runs the learning-rate finder (whose
suggestion is the oracle parameter `suggestion`), sets
`model.hparams.learning_rate` to the suggestion and returns it.  The result
is `(return value, model hparams, trainer)`. -/
def fine_optimal_lr (suggestion : Rat) (model : Hparams) (trainer : TrainerObj) :
    Rat × Hparams × TrainerObj :=
  let model := { model with log_interval := -1 }
  let model := { model with log_val_interval := -1 }
  let trainer := { trainer with limit_train_batches := 1 }
  let model := { model with learning_rate := suggestion }
  (model.learning_rate, model, trainer)

/-! ## Call-trace model

Each function of the script is embedded as the list of framework calls it
performs, in program order.  Arguments the script merely forwards are taken
as opaque `Nat` handles; the traces record the call sequence. -/

/-- One framework call made by the script. -/
inductive Event where
  | generateArData (seasonality : Rat) (timesteps nSeries : Nat)
  | setStaticColumn
  | setDateColumn
  | sampleValidationSeries (n : Nat)
  | buildTrainingDataset
  | buildValidationDataset
  | makeDataloader (train : Bool) (batchSize numWorkers : Nat)
  | makeEarlyStopping
  | makeLrMonitor
  | buildTrainer
  | buildModel
  | printParamCount
  | setNumThreads (n : Nat)
  | trainerFit
  | lrFind
  | printLrSuggestion
  | plotLrCurve
  | showFigure
  | catActualTargets
  | modelPredict (mode : String)
  | printMeanAbsoluteError
  | plotOnePrediction (idx : Nat)
  deriving DecidableEq, BEq, Repr

/-- Calls of `fine_optimal_lr(trainer, model, train_dataloader,
val_dataloader)`: the learning-rate search, the printed suggestion, the
suggestion plot and its display, in that order; the hyperparameter writes
are not framework calls. -/
def fine_optimal_lr_trace (_trainer _model _train_dataloader _val_dataloader : Nat) :
    List Event :=
  [.lrFind, .printLrSuggestion, .plotLrCurve, .showFigure]

/-- Calls of `fit_model(trainer, model, train_loader, val_dataloader)`:
`torch.set_num_threads(10)` then `trainer.fit(...)`. -/
def fit_model_trace (_trainer _model _train_loader _val_dataloader : Nat) :
    List Event :=
  [.setNumThreads 10, .trainerFit]

/-- Calls of `eval_predictions(model, val_dataloader, TRAINER_KWARGS)`:
the dataloader iteration with `torch.cat`, then `model.predict`. -/
def eval_predictions_trace (_model _val_dataloader _trainer_kwargs : Nat) :
    List Event :=
  [.catActualTargets, .modelPredict "prediction"]

/-- Calls of `plot_prediction(model, val_dataloader)`: one raw-mode
`model.predict`, then `model.plot_prediction(x, raw_predictions, idx=idx, ...)`
for `idx in range(10)`, whatever the dataloader holds. -/
def plot_prediction_trace (_model _val_dataloader : Nat) : List Event :=
  Event.modelPredict "raw" :: (List.range 10).map Event.plotOnePrediction

/-- Calls of `main()`, in program order: data generation and column setup,
the validation sample, both `TimeSeriesDataSet` constructions, both
dataloaders, callbacks, trainer, model, the parameter-count print, then the
bodies of `fit_model` and `eval_predictions`, then the MAE print.
`main` never calls `fine_optimal_lr` or `plot_prediction`. -/
def main_trace : List Event :=
  [.generateArData 10 400 100, .setStaticColumn, .setDateColumn,
   .sampleValidationSeries 20, .buildTrainingDataset, .buildValidationDataset,
   .makeDataloader true 64 0, .makeDataloader false 64 0,
   .makeEarlyStopping, .makeLrMonitor, .buildTrainer, .buildModel,
   .printParamCount]
  ++ fit_model_trace 0 0 0 0
  ++ eval_predictions_trace 0 0 0
  ++ [.printMeanAbsoluteError]

/-- Top level of the module: the `if __name__ == "__main__": main()` guard.
Importing the module (`isMainProgram = false`) only defines functions and
performs no framework call. -/
def run_module (isMainProgram : Bool) : List Event :=
  if isMainProgram then main_trace else []

/-- Events that draw or display a figure: the per-window prediction plots of
`plot_prediction` and the learning-rate curve plot of `fine_optimal_lr`. -/
def isPlotEvent : Event → Bool
  | .plotOnePrediction _ => true
  | .plotLrCurve => true
  | .showFigure => true
  | _ => false

/-- Events that touch thread configuration. -/
def isThreadEvent : Event → Bool
  | .setNumThreads _ => true
  | _ => false

/-- The `idx` arguments of the `model.plot_prediction` calls of a trace, in
order. -/
def plotIndices (t : List Event) : List Nat :=
  t.filterMap fun e => match e with
    | .plotOnePrediction i => some i
    | _ => none

/-- Events that create a dataloader. -/
def isDataloaderEvent : Event → Bool
  | .makeDataloader _ _ _ => true
  | _ => false

/-! ## Exception model

The script contains no `try`/`except`.  Each function is embedded in the
`Except E` monad with its framework calls as oracle parameters that may
fail; the function bodies merely sequence them, so any failure
short-circuits and is returned unchanged. -/

/-- `fine_optimal_lr` in the exception model: run the learning-rate finder,
print the suggestion, plot the curve, show the figure, return the
suggestion (the hyperparameter writes are infallible and omitted here). -/
def fine_optimal_lr_calls {E : Type} (lrFindCall : Except E Rat)
    (printSuggestionCall : Rat → Except E Unit) (resPlotCall : Except E Unit)
    (figShowCall : Except E Unit) : Except E Rat := do
  let res ← lrFindCall
  printSuggestionCall res
  resPlotCall
  figShowCall
  pure res

/-- `fit_model` in the exception model: `torch.set_num_threads(10)` then
`trainer.fit(...)`. -/
def fit_model_calls {E : Type} (setThreadsCall : Except E Unit)
    (fitCall : Except E Unit) : Except E Unit := do
  setThreadsCall
  fitCall

/-- `eval_predictions` in the exception model: gather the actual targets,
run `model.predict`, then the infallible arithmetic. -/
def eval_predictions_calls {E : Type} (catActualsCall : Except E Tensor)
    (predictCall : Except E Tensor) : Except E Rat := do
  let actuals ← catActualsCall
  let predictions ← predictCall
  pure (tensorMean (tensorAbs (tensorSub actuals predictions)))

/-- The `for idx in range(10)` loop body of `plot_prediction`, sequencing
one `model.plot_prediction` call per index. -/
def plotLoop {E V : Type} (plotOneCall : Nat → V → Except E Unit) (raw : V) :
    List Nat → Except E Unit
  | [] => pure ()
  | i :: rest => do
      plotOneCall i raw
      plotLoop plotOneCall raw rest

/-- `plot_prediction` in the exception model: one raw-mode `model.predict`,
then the plotting loop over `range(10)`. -/
def plot_prediction_calls {E V : Type} (predictRawCall : Except E V)
    (plotOneCall : Nat → V → Except E Unit) : Except E Unit := do
  let raw ← predictRawCall
  plotLoop plotOneCall raw (List.range 10)

/-- `main` in the exception model: every framework call of `main` is an
oracle parameter; `main` sequences them and delegates to `fit_model_calls`
and `eval_predictions_calls` exactly as the script delegates to `fit_model`
and `eval_predictions`. -/
def main_calls {E V : Type}
    (generateDataCall : Except E V)
    (addStaticCall : V → Except E V)
    (addDateCall : V → Except E V)
    (sampleSeriesCall : V → Except E V)
    (buildTrainingCall : Except E V)
    (buildValidationCall : Except E V)
    (mkTrainLoaderCall : Except E V)
    (mkValLoaderCall : Except E V)
    (mkTrainerCall : Except E V)
    (mkModelCall : Except E V)
    (printParamsCall : Except E Unit)
    (setThreadsCall : Except E Unit)
    (fitCall : Except E Unit)
    (catActualsCall : Except E Tensor)
    (predictCall : Except E Tensor)
    (printMaeCall : Rat → Except E Unit) : Except E Unit := do
  let d ← generateDataCall
  let d ← addStaticCall d
  let d ← addDateCall d
  let _validation ← sampleSeriesCall d
  let _training ← buildTrainingCall
  let _validationDs ← buildValidationCall
  let _trainLoader ← mkTrainLoaderCall
  let _valLoader ← mkValLoaderCall
  let _trainer ← mkTrainerCall
  let _deepar ← mkModelCall
  printParamsCall
  fit_model_calls setThreadsCall fitCall
  let mae ← eval_predictions_calls catActualsCall predictCall
  printMaeCall mae

/-! ## Theorems -/

/-- Helper: elementwise `|a - b|` computed by `tensorAbs` after `tensorSub`
agrees with mapping the absolute difference over the zipped entries. -/
lemma tensorAbs_tensorSub_eq_zip (a b : Tensor) :
    tensorAbs (tensorSub a b) = (a.zip b).map fun p => |p.1 - p.2| := by
  induction a generalizing b with
  | nil => cases b <;> rfl
  | cons x xs ih =>
    cases b with
    | nil => rfl
    | cons y ys =>
      have h := ih ys
      simp only [tensorSub, tensorAbs] at h ⊢
      simp [List.zip_cons_cons, h]

/-- Claim C2: `eval_predictions` returns the mean of the elementwise
absolute differences between the concatenation of the target tensors `y`
drawn from each batch of the dataloader and the tensor returned by
`model.predict` on that dataloader. -/
theorem C2_eval_predictions_is_mae (model_predict : List Batch → Tensor)
    (val_dataloader : List Batch) :
    eval_predictions model_predict val_dataloader =
      tensorMean (((tensorCat (val_dataloader.map Batch.y)).zip
        (model_predict val_dataloader)).map fun p => |p.1 - p.2|) := by
  simp only [eval_predictions]
  rw [tensorAbs_tensorSub_eq_zip]

/-- Claim C6: after `fine_optimal_lr`, `model.hparams.log_interval = -1`,
`model.hparams.log_val_interval = -1`, `trainer.limit_train_batches = 1.0`,
`model.hparams.learning_rate` is the finder suggestion, the return value is
`model.hparams.learning_rate`, and the remaining model and trainer fields
are unchanged. -/
theorem C6_fine_optimal_lr_effects (suggestion : Rat) (m : Hparams) (t : TrainerObj) :
    (fine_optimal_lr suggestion m t).2.1.log_interval = -1 ∧
    (fine_optimal_lr suggestion m t).2.1.log_val_interval = -1 ∧
    (fine_optimal_lr suggestion m t).2.2.limit_train_batches = 1 ∧
    (fine_optimal_lr suggestion m t).2.1.learning_rate = suggestion ∧
    (fine_optimal_lr suggestion m t).1 =
      (fine_optimal_lr suggestion m t).2.1.learning_rate ∧
    (fine_optimal_lr suggestion m t).2.1.otherHparams = m.otherHparams ∧
    (fine_optimal_lr suggestion m t).2.2.otherTrainer = t.otherTrainer :=
  ⟨rfl, rfl, rfl, rfl, rfl, rfl, rfl⟩

/-- Claim C7: the rows of the generated dataframe are partitioned between
the two dataset constructions: every training row has a series outside the
sampled validation set, every validation row has a series inside it, no row
is selected by both filters, and together the two selections are a
permutation of all rows. -/
theorem C7_validation_split_partitions (data : List Row) (vs : List Nat) :
    ((trainingRows data vs).all fun r => !(vs.contains r.series)) = true ∧
    ((validationRows data vs).all fun r => vs.contains r.series) = true ∧
    ((trainingRows data vs).all fun r =>
      !(decide (r ∈ validationRows data vs))) = true ∧
    (trainingRows data vs ++ validationRows data vs).Perm data := by
  refine ⟨?_, ?_, ?_, ?_⟩
  · simp [trainingRows, List.all_eq_true, List.mem_filter]
  · simp [validationRows, List.all_eq_true, List.mem_filter]
  · simp only [trainingRows, validationRows, List.all_eq_true, List.mem_filter]
    intro r hr
    simp only [Bool.not_eq_eq_eq_not, Bool.not_true, decide_eq_false_iff_not,
      List.mem_filter]
    intro hcon
    rcases hr with ⟨-, hnot⟩
    rcases hcon with ⟨-, hin⟩
    rw [hin] at hnot
    simp at hnot
  · have h := List.filter_append_perm
      (fun r : Row => !(vs.contains r.series)) data
    simpa [trainingRows, validationRows, Bool.not_not] using h

/-- Claim C1, counterexample: the claim says every completing run of
`main()` produces both the printed evaluation metric and prediction plots,
but the call trace of `main` contains no plotting call at all —
`plot_prediction` (and `fine_optimal_lr`, the only other plotting code) is
never invoked by `main`. -/
theorem C1_counterexample : main_trace.filter isPlotEvent = [] := by decide

/-- Claim C1, amended: every completing run of `main()` generates the
synthetic data, builds the windowed datasets, configures a trainer, fits
the network and prints the evaluation metric, but it produces no plots:
no plotting call occurs in its trace. -/
theorem C1_main_reports_metric_without_plots :
    main_trace.contains (Event.generateArData 10 400 100) = true ∧
    main_trace.contains Event.buildTrainingDataset = true ∧
    main_trace.contains Event.buildValidationDataset = true ∧
    main_trace.contains Event.buildTrainer = true ∧
    main_trace.contains Event.buildModel = true ∧
    main_trace.contains Event.trainerFit = true ∧
    main_trace.contains Event.printMeanAbsoluteError = true ∧
    main_trace.countP isPlotEvent = 0 := by decide

/-- Claim C3: `main` runs its stages in fixed sequential order — data
generation, dataset construction (then dataloaders), model construction,
fit, evaluation, final print — each exactly once, and no later stage
appears before an earlier one in the trace. -/
theorem C3_stage_order :
    main_trace.count (Event.generateArData 10 400 100) = 1 ∧
    main_trace.count Event.buildTrainingDataset = 1 ∧
    main_trace.count Event.buildValidationDataset = 1 ∧
    main_trace.count Event.buildModel = 1 ∧
    main_trace.count Event.trainerFit = 1 ∧
    main_trace.count (Event.modelPredict "prediction") = 1 ∧
    main_trace.count Event.printMeanAbsoluteError = 1 ∧
    main_trace.indexOf (Event.generateArData 10 400 100) <
      main_trace.indexOf Event.buildTrainingDataset ∧
    main_trace.indexOf Event.buildTrainingDataset <
      main_trace.indexOf Event.buildValidationDataset ∧
    main_trace.indexOf Event.buildValidationDataset <
      main_trace.indexOf (Event.makeDataloader true 64 0) ∧
    main_trace.indexOf (Event.makeDataloader true 64 0) <
      main_trace.indexOf (Event.makeDataloader false 64 0) ∧
    main_trace.indexOf (Event.makeDataloader false 64 0) <
      main_trace.indexOf Event.buildModel ∧
    main_trace.indexOf Event.buildModel <
      main_trace.indexOf Event.trainerFit ∧
    main_trace.indexOf Event.trainerFit <
      main_trace.indexOf (Event.modelPredict "prediction") ∧
    main_trace.indexOf (Event.modelPredict "prediction") <
      main_trace.indexOf Event.printMeanAbsoluteError := by decide

/-- Claim C5: each of the four helper functions performs the same fixed
sequence of framework calls for every input — no branch on its arguments
appears in any trace. -/
theorem C5_fixed_call_sequences
    (a₁ a₂ a₃ a₄ b₁ b₂ b₃ b₄ c₁ c₂ c₃ d₁ d₂ : Nat)
    (x₁ x₂ x₃ x₄ y₁ y₂ y₃ y₄ z₁ z₂ z₃ w₁ w₂ : Nat) :
    fine_optimal_lr_trace a₁ a₂ a₃ a₄ =
      [Event.lrFind, Event.printLrSuggestion, Event.plotLrCurve,
       Event.showFigure] ∧
    fine_optimal_lr_trace a₁ a₂ a₃ a₄ = fine_optimal_lr_trace x₁ x₂ x₃ x₄ ∧
    fit_model_trace b₁ b₂ b₃ b₄ = [Event.setNumThreads 10, Event.trainerFit] ∧
    fit_model_trace b₁ b₂ b₃ b₄ = fit_model_trace y₁ y₂ y₃ y₄ ∧
    eval_predictions_trace c₁ c₂ c₃ =
      [Event.catActualTargets, Event.modelPredict "prediction"] ∧
    eval_predictions_trace c₁ c₂ c₃ = eval_predictions_trace z₁ z₂ z₃ ∧
    plot_prediction_trace d₁ d₂ =
      Event.modelPredict "raw" ::
        (List.range 10).map Event.plotOnePrediction ∧
    plot_prediction_trace d₁ d₂ = plot_prediction_trace w₁ w₂ :=
  ⟨rfl, rfl, rfl, rfl, rfl, rfl, rfl, rfl⟩

/-- Claim C8: the sole thread-related call anywhere in the script is the
single `torch.set_num_threads(10)` inside `fit_model`, made before
`trainer.fit`; both dataloaders are created with `num_workers = 0`, and no
other function performs any thread configuration. -/
theorem C8_single_thread_knob (a₁ a₂ a₃ a₄ b₁ b₂ c₁ c₂ c₃ : Nat) :
    main_trace.filter isThreadEvent = [Event.setNumThreads 10] ∧
    main_trace.indexOf (Event.setNumThreads 10) <
      main_trace.indexOf Event.trainerFit ∧
    fit_model_trace a₁ a₂ a₃ a₄ = [Event.setNumThreads 10, Event.trainerFit] ∧
    main_trace.filter isDataloaderEvent =
      [Event.makeDataloader true 64 0, Event.makeDataloader false 64 0] ∧
    (fine_optimal_lr_trace a₁ a₂ a₃ a₄).filter isThreadEvent = [] ∧
    (plot_prediction_trace b₁ b₂).filter isThreadEvent = [] ∧
    (eval_predictions_trace c₁ c₂ c₃).filter isThreadEvent = [] :=
  ⟨by decide, by decide, rfl, by decide, rfl, rfl, rfl⟩

/-- Claim C9: the module-level guard invokes `main()` exactly when the
module is run as a program; importing the module performs no framework
call, while running it performs the data generation, training and
evaluation calls of `main`. -/
theorem C9_entry_point_guard :
    run_module true = main_trace ∧
    run_module false = [] ∧
    (run_module true).contains (Event.generateArData 10 400 100) = true ∧
    (run_module true).contains Event.trainerFit = true ∧
    (run_module true).contains (Event.modelPredict "prediction") = true := by decide

/-- Claim C10: `plot_prediction` issues exactly ten
`model.plot_prediction` calls with `idx = 0, 1, ..., 9` in increasing
order, independently of the dataloader it is given. -/
theorem C10_ten_plot_calls (model dl dl₂ : Nat) :
    plotIndices (plot_prediction_trace model dl) =
      [0, 1, 2, 3, 4, 5, 6, 7, 8, 9] ∧
    plot_prediction_trace model dl = plot_prediction_trace model dl₂ :=
  ⟨rfl, rfl⟩

/-- Claim C4: the script catches, transforms or retries nothing — a failure
of any framework call inside `fine_optimal_lr`, `fit_model`,
`eval_predictions`, `plot_prediction` or `main` is returned to the caller
unchanged, whatever the remaining calls would have done. -/
theorem C4_errors_propagate_unchanged {E V : Type} (e : E) (s : Rat)
    (psC : Rat → Except E Unit) (rpC fsC tfC : Except E Unit)
    (prC : Except E Tensor) (acts : Tensor)
    (poC : Nat → V → Except E Unit) (v : V)
    (aS aD sS : V → Except E V)
    (bT bV mTL mVL mT mM : Except E V)
    (pP sT fC : Except E Unit)
    (cA pC : Except E Tensor)
    (pM : Rat → Except E Unit) :
    fine_optimal_lr_calls (Except.error e) psC rpC fsC = Except.error e ∧
    fine_optimal_lr_calls (Except.ok s) (fun _ => Except.error e) rpC fsC =
      Except.error e ∧
    fine_optimal_lr_calls (Except.ok s) (fun _ => Except.ok ())
      (Except.error e) fsC = Except.error e ∧
    fine_optimal_lr_calls (Except.ok s) (fun _ => Except.ok ())
      (Except.ok ()) (Except.error e) = Except.error e ∧
    fit_model_calls (Except.error e) tfC = Except.error e ∧
    fit_model_calls (Except.ok ()) (Except.error e) = Except.error e ∧
    eval_predictions_calls (Except.error e) prC = Except.error e ∧
    eval_predictions_calls (Except.ok acts) (Except.error e) =
      Except.error e ∧
    plot_prediction_calls (Except.error e) poC = Except.error e ∧
    plot_prediction_calls (Except.ok v) (fun _ _ => Except.error e) =
      Except.error e ∧
    plot_prediction_calls (Except.ok v)
      (fun i _ => if i < 7 then Except.ok () else Except.error e) =
      Except.error e ∧
    main_calls (Except.error e) aS aD sS bT bV mTL mVL mT mM pP sT fC cA pC
      pM = Except.error e ∧
    main_calls (Except.ok v) (fun _ => Except.ok v) (fun _ => Except.ok v)
      (fun _ => Except.ok v) (Except.ok v) (Except.ok v) (Except.ok v)
      (Except.ok v) (Except.ok v) (Except.ok v) (Except.ok ())
      (Except.ok ()) (Except.error e) cA pC pM = Except.error e ∧
    main_calls (Except.ok v) (fun _ => Except.ok v) (fun _ => Except.ok v)
      (fun _ => Except.ok v) (Except.ok v) (Except.ok v) (Except.ok v)
      (Except.ok v) (Except.ok v) (Except.ok v) (Except.ok ())
      (Except.ok ()) (Except.ok ()) (Except.ok acts) (Except.error e) pM =
      Except.error e :=
  ⟨rfl, rfl, rfl, rfl, rfl, rfl, rfl, rfl, rfl, rfl, rfl, rfl, rfl, rfl⟩

end ArExample
